import Mathlib

/-!
Verification development for the Music2MP3 download/convert engine
(`converter.py`).  The definitions below are a shallow embedding of the
functions of that file: strings are modelled at the character-list level
(so that every definition is executable and decidable), the filesystem is
a map from file names to sizes, and the external `yt-dlp` / `ffmpeg`
subprocesses are modelled by an oracle recording their observable
behaviour (exit code, files produced).  Each embedded definition carries
the name of the Python function it mirrors.
-/

namespace Music2MP3

/-! ### Character-level string helpers (Python `str.strip`, `str.lower`, `in`) -/

/-- Python `str.strip()` on a character list: drop leading and trailing
whitespace. -/
def trimChars (l : List Char) : List Char :=
  ((l.dropWhile Char.isWhitespace).reverse.dropWhile Char.isWhitespace).reverse

/-- Python `str.strip()` lifted to `String`. -/
def strTrim (s : String) : String :=
  String.mk (trimChars s.data)

/-- Python `str.lower()` (ASCII case fold, as used by the titles here). -/
def strLower (s : String) : String :=
  String.mk (s.data.map Char.toLower)

/-- `needle.isPrefixOf` at some position of the haystack: Python's
`needle in hay` substring test. -/
def listContainsSub (needle : List Char) : List Char → Bool
  | [] => needle.isEmpty
  | c :: cs => needle.isPrefixOf (c :: cs) || listContainsSub needle cs

/-- Python `needle in hay` on strings. -/
def strContains (hay needle : String) : Bool :=
  listContainsSub needle.data hay.data

/-! ### Data model

`Row` is one CSV record as produced by `csv.DictReader` in `_read_csv`:
a missing column is modelled by the empty string (the source reads each
field with `r.get(...) or ""`).  The `duration` column is carried so we
can state that the engine never looks at it. -/

structure Row where
  trackName : String
  artistNames : String
  albumName : String
  duration : String
  sourceURL : String
  trackURI : String
deriving DecidableEq, Repr

/-- `TrackJob`: the dict built by `Converter._rows_to_jobs` for one kept row. -/
structure TrackJob where
  title : String
  artists : String
  album : String
  source_url : Option String
  track_uri : Option String
deriving DecidableEq, Repr

/-! ### `Converter._rows_to_jobs` (converter.py lines 280-297) -/

/-- The body of the `for r in rows` loop of `_rows_to_jobs`: strip the
identifying fields and drop the row iff title, artists, URL and URI are
all empty. -/
def rowToJob (r : Row) : Option TrackJob :=
  let title := strTrim r.trackName
  let artists := strTrim r.artistNames
  let album := strTrim r.albumName
  let url := strTrim r.sourceURL
  let uri := strTrim r.trackURI
  if title = "" && artists = "" && url = "" && uri = "" then
    none
  else
    some { title := title, artists := artists, album := album,
           source_url := if url = "" then none else some url,
           track_uri := if uri = "" then none else some uri }

/-- `Converter._rows_to_jobs`. -/
def rows_to_jobs (rows : List Row) : List TrackJob :=
  rows.filterMap rowToJob

/-! ### `_looks_instrumental` (converter.py lines 469-471) -/

/-- `_looks_instrumental(title)`: the lowercased title contains
"instrumental", "karaoke" or "8d audio". -/
def looks_instrumental (title : String) : Bool :=
  let t := strLower title
  strContains t "instrumental" || strContains t "karaoke" || strContains t "8d audio"

/-! ### `Converter._pretty_title` (converter.py lines 299-304) -/

/-- `_pretty_title`: `"{artists} - {title}"` when both are present, else
whichever is non-empty, else "Unknown" (Python `nm or a or "Unknown"`). -/
def pretty_title (t : TrackJob) : String :=
  let a := t.artists
  let nm := t.title
  if a ≠ "" && nm ≠ "" then a ++ " - " ++ nm
  else if nm ≠ "" then nm
  else if a ≠ "" then a
  else "Unknown"

/-! ### `_sanitize_filename` (converter.py lines 456-466) -/

/-- Characters replaced by `_` by the regex `[\\/:*?"<>|]`. -/
def badChar (c : Char) : Bool :=
  c = '\\' || c = '/' || c = ':' || c = '*' || c = '?' || c = '"' ||
  c = '<' || c = '>' || c = '|'

/-- `re.sub(r"\s+", " ", ·)`: each maximal whitespace run becomes one space.
The boolean argument records whether the previous character was whitespace. -/
def collapseWSAux : Bool → List Char → List Char
  | _, [] => []
  | prevWS, c :: cs =>
    if c.isWhitespace then
      if prevWS then collapseWSAux true cs else ' ' :: collapseWSAux true cs
    else c :: collapseWSAux false cs

def collapseWS (l : List Char) : List Char := collapseWSAux false l

/-- Python `str.rstrip`-style: drop trailing characters satisfying `p`. -/
def rstripP (p : Char → Bool) (l : List Char) : List Char :=
  (l.reverse.dropWhile p).reverse

/-- `_sanitize_filename(name, for_dir)`. -/
def sanitize_filename (s : String) (forDir : Bool) : String :=
  let l := trimChars s.data
  let l := l.map fun c => if c = '\n' then ' ' else c
  let l := l.map fun c => if badChar c then '_' else c
  let l := trimChars (collapseWS l)
  let l := if 150 < l.length then rstripP Char.isWhitespace (l.take 150) else l
  let l := if l.isEmpty then "untitled".data else l
  let l := if forDir then rstripP (fun c => c = '.' || c = ' ') l else l
  String.mk l

/-! ### `_FORMAT_MAP` and `Converter._resolve_output_format`
(converter.py lines 24-32 and 270-278) -/

structure FormatEntry where
  yt_fmt : String
  ext : String
  quality : Option String
  needs_aiff : Bool
deriving DecidableEq, Repr

def FORMAT_MAP (fmt : String) : Option FormatEntry :=
  if fmt = "mp3" then some ⟨"mp3", "mp3", some "0", false⟩
  else if fmt = "m4a" then some ⟨"m4a", "m4a", some "0", false⟩
  else if fmt = "aac" then some ⟨"aac", "aac", some "0", false⟩
  else if fmt = "wav" then some ⟨"wav", "wav", none, false⟩
  else if fmt = "flac" then some ⟨"flac", "flac", none, false⟩
  else if fmt = "aiff" then some ⟨"wav", "aiff", none, true⟩
  else none

/-- The converter options read from the config dict in `Converter.__init__`. -/
structure Config where
  prefix_numbers : Bool
  deep_search : Bool
  transcode_mp3 : Bool
  output_format_raw : String
  generate_m3u : Bool
  exclude_instr : Bool
  incremental : Bool
deriving DecidableEq, Repr

/-- `_resolve_output_format`: normalize the configured format name and fall
back to "mp3" (both fallback branches of the source return "mp3"). -/
def resolve_output_format (cfg : Config) : String :=
  let fmt := strLower (strTrim cfg.output_format_raw)
  let fmt := if fmt = "aif" then "aiff" else fmt
  if fmt ≠ "" && (FORMAT_MAP fmt).isSome then fmt else "mp3"

/-- `self._fmt_entry = _FORMAT_MAP[self.output_format]`; the lookup always
succeeds because `resolve_output_format` only returns keys of the map. -/
def fmt_entry (cfg : Config) : FormatEntry :=
  (FORMAT_MAP (resolve_output_format cfg)).getD ⟨"mp3", "mp3", some "0", false⟩

/-! ### `Converter._build_search_query` (converter.py lines 306-314) -/

/-- Python `s.split(",")[0]`: the prefix of the string before the first
comma (the whole string when there is none). -/
def splitCommaHead (l : List Char) : List Char := l.takeWhile (· ≠ ',')

/-- The primary artist actually used by `_build_search_query`:
`(t.get("artists") or "").split(",")[0].strip()`. -/
def query_artist (artists : String) : String :=
  String.mk (trimChars (splitCommaHead artists.data))

/-- `_build_search_query`. -/
def build_search_query (deep_search : Bool) (t : TrackJob) : String :=
  let artist := query_artist t.artists
  let query := strTrim (artist ++ " " ++ t.title)
  let query := if deep_search then query ++ " audio" else query
  "ytsearch1:" ++ query

/-- Modelled from the spec: "Primary artist = first token before a separator
in {comma, slash, ampersand, \" feat.\", \" ft.\"} (case-insensitive),
trimmed."  Used only to compare the spec's extraction rule with the one the
source implements (`query_artist`). -/
def specSeparators : List (List Char) :=
  [[','], ['/'], ['&'], " feat.".data, " ft.".data]

/-- Index of the earliest separator occurrence in a (lowercased) character
list, if any. -/
def findSepIdx : List Char → Option Nat
  | [] => none
  | c :: cs =>
    if specSeparators.any (fun sep => sep.isPrefixOf (c :: cs)) then some 0
    else (findSepIdx cs).map (· + 1)

/-- Modelled from the spec: the primary-artist extraction the spec describes
(first token before the earliest separator, matched case-insensitively,
trimmed). -/
def primary_artist_spec (s : String) : String :=
  match findSepIdx (s.data.map Char.toLower) with
  | none => strTrim s
  | some i => String.mk (trimChars (s.data.take i))

/-! ### `Converter._run_ytdlp_stream` (converter.py lines 381-441)

The subprocess itself is external; its observable behaviour is modelled by
the stripped output lines it emits, whether spawning it succeeds
(`toolFound`), and whether / with which code it has exited by the time
`proc.wait(timeout=20)` is reached (`waitResult`, `none` = still running
when the 20-second grace period elapses).  The shared cancellation flag is
a `threading.Event`; its value at the check following line `n` is
`cancelAt n`. -/

structure StreamOut where
  /-- lines passed to `on_progress` (blank lines are skipped by `continue`). -/
  progressed : List String
  /-- `proc.terminate()` was called. -/
  terminated : Bool
  /-- `proc.kill()` was called — the source contains no such call. -/
  killed : Bool
  /-- the subprocess had not exited when `_run_ytdlp_stream` returned. -/
  stillRunning : Bool
  exitCode : Int
deriving DecidableEq, Repr

/-- The `for raw in proc.stdout` loop: log/report each non-blank line, then
poll the cancellation flag; on observation call `terminate()` and break.
Returns the reported lines and whether `terminate()` was called. -/
def stream_loop (cancelAt : Nat → Bool) : Nat → List String → List String × Bool
  | _, [] => ([], false)
  | n, l :: ls =>
    if l = "" then stream_loop cancelAt (n + 1) ls
    else if cancelAt n then ([l], true)
    else
      let r := stream_loop cancelAt (n + 1) ls
      (l :: r.1, r.2)

/-- `_run_ytdlp_stream`: `FileNotFoundError` on spawn yields 127; otherwise
stream the lines, then `proc.wait(timeout=20)` — its result on normal exit,
`1` when the wait times out (the subprocess then being still alive). -/
def run_ytdlp_stream (toolFound : Bool) (cancelAt : Nat → Bool)
    (lines : List String) (waitResult : Option Int) : StreamOut :=
  if !toolFound then
    { progressed := [], terminated := false, killed := false,
      stillRunning := false, exitCode := 127 }
  else
    let r := stream_loop cancelAt 0 lines
    { progressed := r.1, terminated := r.2, killed := false,
      stillRunning := waitResult.isNone,
      exitCode := match waitResult with | some c => c | none => 1 }

/-! ### `Converter._process_one` (converter.py lines 193-266) -/

inductive Event where
  | conv_init (n : Nat)
  | init (idx : Nat) (title : String)
  | done (idx : Nat)
  | error (idx : Nat) (msg : String)
  | cancel_all
deriving DecidableEq, Repr

/-- The error message of the `code == 127` branch (lines 236-243). -/
def toolMissingMsg : String :=
  "yt-dlp n'est pas disponible. Installe-le (pip install yt-dlp) ou place 'yt-dlp(.exe)' et 'ffmpeg' avec l'application."

/-- The error message of the `code != 0` branch (line 246). -/
def dlFailedMsg (code : Int) (prettyTitle : String) : String :=
  "yt-dlp failed with code " ++ toString code ++ " for: " ++ prettyTitle

/-- The error message of the AIFF-transcode failure branch (line 256);
the source appends the exception text, which the model leaves out. -/
def aiffFailedMsg : String := "AIFF conversion failed"

/-- Observable behaviour of the external world during one `_process_one`
call: the value of the shared cancellation flag at its two poll sites, the
exit code the `yt-dlp` stream run returns, which files the subprocess left
behind, and whether the `ffmpeg` WAV→AIFF transcode succeeds. -/
structure Oracle where
  /-- `cancel_event.is_set()` at function entry (line 195). -/
  cancelAtStart : Bool
  /-- result of `_run_ytdlp_stream` (127 = tool not found). -/
  dlCode : Int
  /-- `cancel_event.is_set()` at the post-download check (line 231). -/
  cancelAfterDl : Bool
  /-- the intermediate `dl_target` file exists after the yt-dlp call. -/
  tmpAfterDl : Bool
  /-- `dest_final` exists non-empty after the yt-dlp call; the source
  never reads the filesystem after the subprocess returns, so the worker's
  result cannot depend on this field. -/
  destAfterDl : Bool
  /-- the `_convert_wav_to_aiff` subprocess exits with code 0. -/
  aiffOk : Bool
deriving DecidableEq, Repr

/-- Observable outcome of one `_process_one` call. -/
structure JobOut where
  /-- `item_cb` events emitted, in order (the initial `"init"` row event
  included). -/
  events : List Event
  /-- name appended to `self._made_files` (under the lock), if any. -/
  made : Option String
  /-- the yt-dlp subprocess was invoked (a download was attempted). -/
  ranSubprocess : Bool
  /-- the URL / search specification handed to yt-dlp, when it ran. -/
  sourceSpec : Option String
  /-- the intermediate `.tmp.wav` file exists after the call returns. -/
  tmpLeft : Bool
deriving DecidableEq, Repr

/-- The source specification handed to yt-dlp (lines 216-218):
`url = t.get("source_url") or t.get("track_uri")`, else the search query.
(`_rows_to_jobs` stores `None` instead of empty strings, so Python's `or`
coincides with this option chain.) -/
def job_source_spec (cfg : Config) (t : TrackJob) : String :=
  match t.source_url with
  | some u => u
  | none => match t.track_uri with
    | some u => u
    | none => build_search_query cfg.deep_search t

/-- `_process_one(idx, t, dest_path)` under oracle `ox`, with `fs` the
size of each file in the output folder at run start (0 = missing or
empty). -/
def process_one (cfg : Config) (fs : String → Nat) (ox : Oracle)
    (idx : Nat) (t : TrackJob) (dest : String) : JobOut :=
  if ox.cancelAtStart then
    { events := [], made := none, ranSubprocess := false,
      sourceSpec := none, tmpLeft := false }
  else
    let pretty := pretty_title t
    let needs_aiff := (fmt_entry cfg).needs_aiff
    let evInit := Event.init idx pretty
    -- incremental skip: `dest_final.exists() and dest_final.stat().st_size > 0`
    if cfg.incremental && decide (0 < fs dest) then
      { events := [evInit, .done idx], made := some dest,
        ranSubprocess := false, sourceSpec := none, tmpLeft := false }
    else
      let url := job_source_spec cfg t
      let tmpNow := needs_aiff && ox.tmpAfterDl
      if ox.cancelAfterDl then
        { events := [evInit, .cancel_all], made := none,
          ranSubprocess := true, sourceSpec := some url, tmpLeft := tmpNow }
      else if ox.dlCode = 127 then
        { events := [evInit, .error idx toolMissingMsg], made := none,
          ranSubprocess := true, sourceSpec := some url, tmpLeft := tmpNow }
      else if ox.dlCode ≠ 0 then
        { events := [evInit, .error idx (dlFailedMsg ox.dlCode pretty)],
          made := none, ranSubprocess := true, sourceSpec := some url,
          tmpLeft := tmpNow }
      else if needs_aiff then
        if ox.aiffOk then
          -- success: transcode then `dl_target.unlink()` (lines 258-262)
          { events := [evInit, .done idx], made := some dest,
            ranSubprocess := true, sourceSpec := some url, tmpLeft := false }
        else
          -- failure: report and `return` — the unlink is never reached
          { events := [evInit, .error idx aiffFailedMsg], made := none,
            ranSubprocess := true, sourceSpec := some url, tmpLeft := tmpNow }
      else
        { events := [evInit, .done idx], made := some dest,
          ranSubprocess := true, sourceSpec := some url, tmpLeft := false }

/-! ### `Converter.convert_from_csv` (converter.py lines 126-189) -/

/-- `f"{idx:03d}"`: decimal digits zero-padded to width 3. -/
def pad3 (n : Nat) : String :=
  let s := Nat.repr n
  if 3 ≤ s.length then s else String.mk (List.replicate (3 - s.length) '0' ++ s.data)

/-- The job list after the optional instrumental filter (lines 141-144). -/
def planned_tracks (cfg : Config) (rows : List Row) : List TrackJob :=
  let tracks := rows_to_jobs rows
  if cfg.exclude_instr then tracks.filter (fun t => !looks_instrumental t.title)
  else tracks

/-- The payload of the `"conv_init"` event: `{"new": total}` with
`total = len(tracks)` (lines 146-147). -/
def conv_init_new (cfg : Config) (rows : List Row) : Nat :=
  (planned_tracks cfg rows).length

/-- The destination file name computed in the submission loop
(lines 159-163), name only — every job of a run lives in the same
output directory. -/
def dest_name (cfg : Config) (idx : Nat) (t : TrackJob) : String :=
  let base := sanitize_filename (pretty_title t) false
  let base := if cfg.prefix_numbers then pad3 idx ++ " - " ++ base else base
  base ++ "." ++ (fmt_entry cfg).ext

/-- One `JobOut` per planned track, in submission order
(`enumerate(tracks, start=1)`); worker `idx` runs under oracle `ox idx`. -/
def batch_outs (cfg : Config) (fs : String → Nat) (ox : Nat → Oracle)
    (rows : List Row) : List JobOut :=
  (planned_tracks cfg rows).enum.map fun p =>
    process_one cfg fs (ox (p.1 + 1)) (p.1 + 1) p.2 (dest_name cfg (p.1 + 1) p.2)

/-- `self._made_files` at the end of the run: each worker appends its name
when it completes, so the list is ordered by the completion order of the
workers.  `order` lists the 0-based submission positions in the order the
workers completed. -/
def made_files (outs : List JobOut) (order : List Nat) : List String :=
  order.filterMap fun i => (outs[i]?).bind JobOut.made

/-- The lines written to `playlist.m3u8` (lines 177-187): the made-files
list verbatim, written only when `generate_m3u` is on and the list is
non-empty. -/
def m3u_content (cfg : Config) (outs : List JobOut) (order : List Nat) :
    Option (List String) :=
  let mf := made_files outs order
  if cfg.generate_m3u && !mf.isEmpty then some mf else none

/-! ### Concrete fixtures used by counterexamples and witnesses -/

/-- Default options: mp3, incremental on, no numbering, deep search. -/
def cfgMp3 : Config :=
  { prefix_numbers := false, deep_search := true, transcode_mp3 := false,
    output_format_raw := "mp3", generate_m3u := true, exclude_instr := false,
    incremental := true }

/-- The AIFF configuration (two-stage download path). -/
def cfgAiff : Config := { cfgMp3 with output_format_raw := "aiff" }

/-- An empty destination folder. -/
def fsEmpty : String → Nat := fun _ => 0

/-- A benign oracle: no cancellation, yt-dlp exits 0, transcode succeeds. -/
def oxOK : Oracle :=
  { cancelAtStart := false, dlCode := 0, cancelAfterDl := false,
    tmpAfterDl := false, destAfterDl := true, aiffOk := true }

/-- A simple one-track job used by several counterexamples. -/
def jobAS : TrackJob := ⟨"Song", "Artist", "", none, none⟩

/-! ### Branch lemmas for `process_one` -/

theorem process_one_skip (cfg : Config) (fs : String → Nat) (ox : Oracle)
    (idx : Nat) (t : TrackJob) (dest : String)
    (h : ox.cancelAtStart = false)
    (hc : (cfg.incremental && decide (0 < fs dest)) = true) :
    process_one cfg fs ox idx t dest =
      { events := [.init idx (pretty_title t), .done idx], made := some dest,
        ranSubprocess := false, sourceSpec := none, tmpLeft := false } := by
  simp [process_one, h, hc]

theorem process_one_ranSubprocess (cfg : Config) (fs : String → Nat)
    (ox : Oracle) (idx : Nat) (t : TrackJob) (dest : String)
    (h : ox.cancelAtStart = false) :
    (process_one cfg fs ox idx t dest).ranSubprocess =
      !(cfg.incremental && decide (0 < fs dest)) := by
  cases hc : (cfg.incremental && decide (0 < fs dest)) with
  | true => simp [process_one, h, hc]
  | false =>
      simp only [process_one, h, Bool.false_eq_true, if_false, hc]
      split_ifs <;> rfl

theorem process_one_127 (cfg : Config) (fs : String → Nat) (ox : Oracle)
    (idx : Nat) (t : TrackJob) (dest : String)
    (h1 : ox.cancelAtStart = false) (h2 : ox.cancelAfterDl = false)
    (h3 : ox.dlCode = 127)
    (hc : (cfg.incremental && decide (0 < fs dest)) = false) :
    process_one cfg fs ox idx t dest =
      { events := [.init idx (pretty_title t), .error idx toolMissingMsg],
        made := none, ranSubprocess := true,
        sourceSpec := some (job_source_spec cfg t),
        tmpLeft := (fmt_entry cfg).needs_aiff && ox.tmpAfterDl } := by
  simp [process_one, h1, h2, h3, hc]

section Claims

/-! ## C9 — row normalization -/

/-- **C9** (confirmed).  Row normalization discards an input row if and only
if every identifying field (title, artist, source URL, track URI) is empty
after stripping; any other row yields exactly one `TrackJob`; and the
duration column is never read, so a malformed duration cannot raise — the
produced job is the same for every duration string. -/
theorem C9_row_normalization (r : Row) (d : String) :
    (rowToJob r = none ↔
      (strTrim r.trackName = "" ∧ strTrim r.artistNames = "" ∧
       strTrim r.sourceURL = "" ∧ strTrim r.trackURI = "")) ∧
    rowToJob { r with duration := d } = rowToJob r ∧
    rows_to_jobs [r] = (rowToJob r).toList := by
  refine ⟨?_, rfl, ?_⟩
  · by_cases h : strTrim r.trackName = "" ∧ strTrim r.artistNames = "" ∧
        strTrim r.sourceURL = "" ∧ strTrim r.trackURI = ""
    · simp [rowToJob, h.1, h.2.1, h.2.2.1, h.2.2.2]
    · simp only [rowToJob]
      rw [if_neg]
      · simp [h]
      · simp only [Bool.and_eq_true, decide_eq_true_eq]
        tauto
  · simp [rows_to_jobs, List.filterMap]
    cases rowToJob r <;> rfl

/-! ## C10 — instrumental exclusion -/

/-- **C10** (confirmed).  With `exclude_instrumentals` enabled, the job list
handed to the workers is the normalized row list with every title that looks
instrumental (contains "instrumental", "karaoke" or "8d audio" after
lowercasing) filtered out; the `conv_init` total is the length of that
filtered list, so such rows are never counted; and no instrumental-looking
job remains in the planned list, so none is ever dispatched for download. -/
theorem C10_exclude_instrumentals (cfg : Config) (rows : List Row)
    (h : cfg.exclude_instr = true) :
    planned_tracks cfg rows =
      (rows_to_jobs rows).filter (fun t => !looks_instrumental t.title) ∧
    conv_init_new cfg rows = (planned_tracks cfg rows).length ∧
    ∀ t ∈ rows_to_jobs rows, looks_instrumental t.title = true →
      t ∉ planned_tracks cfg rows := by
  have hpl : planned_tracks cfg rows =
      (rows_to_jobs rows).filter (fun t => !looks_instrumental t.title) := by
    simp [planned_tracks, h]
  refine ⟨hpl, rfl, ?_⟩
  intro t _ hinstr hmem
  rw [hpl] at hmem
  have := (List.mem_filter.mp hmem).2
  simp [hinstr] at this

/-- Witness for C10 at a concrete run: one instrumental row among two. -/
def rowsC10 : List Row :=
  [⟨"X", "A", "", "", "", ""⟩, ⟨"Y (Instrumental)", "B", "", "", "", ""⟩]

def cfgC10 : Config := { cfgMp3 with exclude_instr := true }

theorem C10_witness :
    planned_tracks cfgC10 rowsC10 =
      (rows_to_jobs rowsC10).filter (fun t => !looks_instrumental t.title) ∧
    conv_init_new cfgC10 rowsC10 = (planned_tracks cfgC10 rowsC10).length ∧
    ∀ t ∈ rows_to_jobs rowsC10, looks_instrumental t.title = true →
      t ∉ planned_tracks cfgC10 rowsC10 :=
  C10_exclude_instrumentals cfgC10 rowsC10 rfl

/-! ## C8 — primary-artist extraction -/

/-- **C8** (counterexample).  The source splits the artist string on commas
only (`split(",")[0]`), so for `"A / B"` the query is built with the whole
string `"A / B"` as the artist, while the spec's separator set would extract
`"A"`; likewise `" feat."`, `" ft."` and `"&"` are not treated as
separators. -/
theorem C8_counterexample :
    query_artist "A / B" = "A / B" ∧
    primary_artist_spec "A / B" = "A" ∧
    build_search_query true ⟨"T", "A / B", "", none, none⟩ =
      "ytsearch1:A / B T audio" ∧
    query_artist "A / B" ≠ primary_artist_spec "A / B" ∧
    query_artist "A feat. B" = "A feat. B" ∧
    primary_artist_spec "A feat. B" = "A" := by decide

/-- **C8** (amended, proved).  The primary artist used in search-query
construction is the prefix of the artist string before the first comma,
trimmed; in particular a string containing no comma — even one containing a
slash, ampersand, " feat." or " ft." — is used whole (trimmed), and the
query is `ytsearch1:` followed by the trimmed `artist ++ " " ++ title`, with
`" audio"` appended when deep search is on. -/
theorem C8_primary_artist (t : TrackJob) (deep : Bool)
    (h : ',' ∉ t.artists.data) :
    query_artist t.artists = strTrim t.artists ∧
    build_search_query deep t =
      "ytsearch1:" ++
        (let q := strTrim (strTrim t.artists ++ " " ++ t.title)
         if deep then q ++ " audio" else q) := by
  have h1 : splitCommaHead t.artists.data = t.artists.data := by
    rw [splitCommaHead, List.takeWhile_eq_self_iff]
    intro c hc
    simp only [decide_eq_true_eq]
    rintro rfl
    exact h hc
  have hq : query_artist t.artists = strTrim t.artists := by
    simp [query_artist, h1, strTrim]
  refine ⟨hq, ?_⟩
  simp only [build_search_query, hq]

theorem C8_witness :
    query_artist "A feat. B" = strTrim "A feat. B" ∧
    build_search_query false ⟨"T", "A feat. B", "", none, none⟩ =
      "ytsearch1:" ++
        (let q := strTrim (strTrim "A feat. B" ++ " " ++ "T")
         if false then q ++ " audio" else q) :=
  C8_primary_artist ⟨"T", "A feat. B", "", none, none⟩ false (by decide)

/-! ## C1 — incremental skip is keyed by the destination filename -/

/-- The destination folder containing the (non-empty) output file
`Artist - Song.mp3`. -/
def fsAS : String → Nat := fun s => if s = "Artist - Song.mp3" then 1 else 0

/-- **C1** (counterexample).  Two runs over the *same* track content (equal
title, artists, album, URI and URL — hence equal candidate identity keys
under any content-based derivation) against the *same* destination folder:
with `prefix_numbers` off the computed filename matches an existing file and
the job is skipped; with `prefix_numbers` on the computed filename differs
and the very same content is downloaded again.  The skip decision therefore
depends on the computed filename, not only on content identity and the
existing outputs — refuting "skipped if and only if any candidate identity
key is in the existing-key set". -/
theorem C1_counterexample :
    dest_name cfgMp3 1 jobAS = "Artist - Song.mp3" ∧
    dest_name { cfgMp3 with prefix_numbers := true } 1 jobAS =
      "001 - Artist - Song.mp3" ∧
    (process_one cfgMp3 fsAS oxOK 1 jobAS "Artist - Song.mp3").ranSubprocess
      = false ∧
    (process_one cfgMp3 fsAS oxOK 1 jobAS "Artist - Song.mp3").made
      = some "Artist - Song.mp3" ∧
    (process_one { cfgMp3 with prefix_numbers := true } fsAS oxOK 1 jobAS
        "001 - Artist - Song.mp3").ranSubprocess = true := by
  decide

/-- **C1** (amended, proved).  The incremental skip is keyed by the
destination *filename*: a not-yet-cancelled job is skipped as already
present (no subprocess run, its name still appended to the made list) if
and only if `incremental_update` is enabled and the computed destination
file exists with non-zero size. -/
theorem C1_skip_by_filename (cfg : Config) (fs : String → Nat) (ox : Oracle)
    (idx : Nat) (t : TrackJob) (dest : String)
    (h : ox.cancelAtStart = false) :
    ((process_one cfg fs ox idx t dest).ranSubprocess = false ∧
      ((process_one cfg fs ox idx t dest).made).isSome = true) ↔
    (cfg.incremental = true ∧ 0 < fs dest) := by
  have hr := process_one_ranSubprocess cfg fs ox idx t dest h
  cases hc : (cfg.incremental && decide (0 < fs dest)) with
  | true =>
      rw [process_one_skip cfg fs ox idx t dest h hc]
      simp only [Bool.and_eq_true, decide_eq_true_eq] at hc
      simp [hc.1, hc.2]
  | false =>
      constructor
      · rintro ⟨hrs, _⟩
        rw [hr, hc] at hrs
        simp at hrs
      · rintro ⟨hi, hp⟩
        rw [hi] at hc
        simp [hp] at hc

theorem C1_witness :
    ((process_one cfgMp3 fsAS oxOK 1 jobAS "Artist - Song.mp3").ranSubprocess
        = false ∧
      ((process_one cfgMp3 fsAS oxOK 1 jobAS "Artist - Song.mp3").made).isSome
        = true) ↔
    (cfgMp3.incremental = true ∧ 0 < fsAS "Artist - Song.mp3") :=
  C1_skip_by_filename cfgMp3 fsAS oxOK 1 jobAS "Artist - Song.mp3" rfl

/-! ## C3 — exit code 0 is trusted without checking the output file -/

/-- **C3** (counterexample).  A job whose yt-dlp subprocess exits 0 but
leaves *no* destination file (`destAfterDl := false`) is still reported
`done` — there is no "output file not found" error anywhere in the source —
and the worker's outcome is identical whether or not the output file exists
after the subprocess returns. -/
theorem C3_counterexample :
    process_one cfgMp3 fsEmpty { oxOK with destAfterDl := false } 1 jobAS
        "Artist - Song.mp3" =
      { events := [.init 1 "Artist - Song", .done 1],
        made := some "Artist - Song.mp3", ranSubprocess := true,
        sourceSpec := some "ytsearch1:Artist Song audio", tmpLeft := false } ∧
    process_one cfgMp3 fsEmpty { oxOK with destAfterDl := false } 1 jobAS
        "Artist - Song.mp3" =
      process_one cfgMp3 fsEmpty { oxOK with destAfterDl := true } 1 jobAS
        "Artist - Song.mp3" := by
  decide

/-- **C3** (amended, proved).  When the retrieval subprocess exits with code
0 (single-stage format, job not skipped, not cancelled) the job is reported
as succeeded *unconditionally*: the worker never re-reads the filesystem, so
the outcome is the same for every value of the post-subprocess file state
`ox.destAfterDl`, and no "output file not found" failure exists. -/
theorem C3_exit0_trusted (cfg : Config) (fs : String → Nat) (ox : Oracle)
    (idx : Nat) (t : TrackJob) (dest : String)
    (h1 : ox.cancelAtStart = false) (h2 : ox.cancelAfterDl = false)
    (h3 : ox.dlCode = 0) (h4 : (fmt_entry cfg).needs_aiff = false)
    (hc : (cfg.incremental && decide (0 < fs dest)) = false) :
    process_one cfg fs ox idx t dest =
      { events := [.init idx (pretty_title t), .done idx], made := some dest,
        ranSubprocess := true, sourceSpec := some (job_source_spec cfg t),
        tmpLeft := false } ∧
    ∀ b, process_one cfg fs { ox with destAfterDl := b } idx t dest =
      process_one cfg fs ox idx t dest := by
  refine ⟨?_, fun b => rfl⟩
  simp [process_one, h1, h2, h3, h4, hc]

theorem C3_witness :
    (process_one cfgMp3 fsEmpty { oxOK with destAfterDl := false } 1 jobAS
        "Artist - Song.mp3" =
      { events := [.init 1 (pretty_title jobAS), .done 1],
        made := some "Artist - Song.mp3", ranSubprocess := true,
        sourceSpec := some (job_source_spec cfgMp3 jobAS), tmpLeft := false } ∧
    ∀ b, process_one cfgMp3 fsEmpty
        { { oxOK with destAfterDl := false } with destAfterDl := b } 1 jobAS
        "Artist - Song.mp3" =
      process_one cfgMp3 fsEmpty { oxOK with destAfterDl := false } 1 jobAS
        "Artist - Song.mp3") :=
  C3_exit0_trusted cfgMp3 fsEmpty { oxOK with destAfterDl := false } 1 jobAS
    "Artist - Song.mp3" rfl rfl rfl (by decide) (by decide)

/-! ## C6 — AIFF two-stage path and intermediate-file cleanup -/

/-- **C6** (counterexample).  AIFF target, download succeeded (exit 0), the
intermediate WAV was produced, but the second-stage transcode fails: the
worker reports the distinct "AIFF conversion failed" error and returns
*before* the unlink (converter.py line 257), so the intermediate file still
exists after job completion — refuting "the intermediate file does not
exist after job completion, whether the transcode stage succeeded or
failed". -/
theorem C6_counterexample :
    process_one cfgAiff fsEmpty
        { oxOK with tmpAfterDl := true, aiffOk := false } 1 jobAS
        "Artist - Song.aiff" =
      { events := [.init 1 "Artist - Song", .error 1 aiffFailedMsg],
        made := none, ranSubprocess := true,
        sourceSpec := some "ytsearch1:Artist Song audio",
        tmpLeft := true } := by
  decide

/-- **C6** (amended, proved).  For the AIFF target the job downloads to an
intermediate file and produces the final file via the second transcode
stage; on transcode *success* the intermediate is deleted and the job is
reported done, while on transcode *failure* the job fails with a distinct
error message (different from the tool-missing and download-failure
messages) but the intermediate file is left behind — cleanup happens only
on the success path. -/
theorem C6_aiff_two_stage (cfg : Config) (fs : String → Nat) (ox : Oracle)
    (idx : Nat) (t : TrackJob) (dest : String)
    (ha : (fmt_entry cfg).needs_aiff = true)
    (h1 : ox.cancelAtStart = false) (h2 : ox.cancelAfterDl = false)
    (h3 : ox.dlCode = 0)
    (hc : (cfg.incremental && decide (0 < fs dest)) = false) :
    (ox.aiffOk = true →
      process_one cfg fs ox idx t dest =
        { events := [.init idx (pretty_title t), .done idx],
          made := some dest, ranSubprocess := true,
          sourceSpec := some (job_source_spec cfg t), tmpLeft := false }) ∧
    (ox.aiffOk = false →
      process_one cfg fs ox idx t dest =
        { events := [.init idx (pretty_title t), .error idx aiffFailedMsg],
          made := none, ranSubprocess := true,
          sourceSpec := some (job_source_spec cfg t),
          tmpLeft := ox.tmpAfterDl }) ∧
    aiffFailedMsg ≠ toolMissingMsg ∧
    ∀ c p, aiffFailedMsg ≠ dlFailedMsg c p := by
  refine ⟨?_, ?_, by decide, ?_⟩
  · intro hok
    simp [process_one, h1, h2, h3, ha, hc, hok]
  · intro hko
    simp [process_one, h1, h2, h3, ha, hc, hko]
  · intro c p heq
    have hdata := congrArg String.data heq
    rw [dlFailedMsg, String.data_append, String.data_append,
      String.data_append] at hdata
    rw [show aiffFailedMsg.data = 'A' :: "IFF conversion failed".data from
      rfl] at hdata
    rw [show ("yt-dlp failed with code ").data =
      'y' :: "t-dlp failed with code ".data from rfl] at hdata
    simp [List.cons_append, List.append_assoc] at hdata

theorem C6_witness :
    ((({ oxOK with tmpAfterDl := true } : Oracle).aiffOk = true →
      process_one cfgAiff fsEmpty { oxOK with tmpAfterDl := true } 1 jobAS
          "Artist - Song.aiff" =
        { events := [.init 1 (pretty_title jobAS), .done 1],
          made := some "Artist - Song.aiff", ranSubprocess := true,
          sourceSpec := some (job_source_spec cfgAiff jobAS),
          tmpLeft := false }) ∧
    (({ oxOK with tmpAfterDl := true } : Oracle).aiffOk = false →
      process_one cfgAiff fsEmpty { oxOK with tmpAfterDl := true } 1 jobAS
          "Artist - Song.aiff" =
        { events := [.init 1 (pretty_title jobAS), .error 1 aiffFailedMsg],
          made := none, ranSubprocess := true,
          sourceSpec := some (job_source_spec cfgAiff jobAS),
          tmpLeft := ({ oxOK with tmpAfterDl := true } : Oracle).tmpAfterDl }) ∧
    aiffFailedMsg ≠ toolMissingMsg ∧
    ∀ c p, aiffFailedMsg ≠ dlFailedMsg c p) :=
  C6_aiff_two_stage cfgAiff fsEmpty { oxOK with tmpAfterDl := true } 1 jobAS
    "Artist - Song.aiff" (by decide) rfl rfl rfl (by decide)

/-! ## C5 — cancellation behaviour of the stream runner -/

/-- When the cancellation flag is never set, every non-blank line is
reported and `terminate()` is never called. -/
theorem stream_loop_no_cancel (cancelAt : Nat → Bool)
    (hno : ∀ n, cancelAt n = false) (k : Nat) (lines : List String) :
    stream_loop cancelAt k lines = (lines.filter (fun l => l ≠ ""), false) := by
  induction lines generalizing k with
  | nil => rfl
  | cons l ls ih =>
      by_cases hl : l = ""
      · simp [stream_loop, hl, ih (k + 1)]
      · simp [stream_loop, hl, hno k, ih (k + 1)]

/-- When the cancellation flag is set throughout and there is at least one
non-blank line, the very first poll observes it: `terminate()` is called and
exactly one line was reported. -/
theorem stream_loop_all_cancel (cancelAt : Nat → Bool)
    (hall : ∀ n, cancelAt n = true) (k : Nat) (lines : List String) :
    lines.filter (fun l => l ≠ "") ≠ [] →
    (stream_loop cancelAt k lines).2 = true ∧
    (stream_loop cancelAt k lines).1.length = 1 := by
  induction lines generalizing k with
  | nil => simp
  | cons l ls ih =>
      intro hne
      by_cases hl : l = ""
      · have hne' : ls.filter (fun l => l ≠ "") ≠ [] := by
          simpa [hl] using hne
        simpa [stream_loop, hl] using ih (k + 1) hne'
      · simp [stream_loop, hl, hall k]

/-- **C5** (counterexample).  A concrete cancelled run: the flag becomes
visible at the poll after the second line, `terminate()` is called, the
runner waits out the 20-second grace period without the subprocess exiting
(`waitResult = none`), returns exit code 1 — and `kill()` is *never* called
(`killed = false`), with the subprocess still running when the call
returns (`stillRunning = true`).  This refutes both "then killed" and "no
subprocess remains running after the run returns". -/
theorem C5_counterexample :
    run_ytdlp_stream true (fun n => decide (1 ≤ n)) ["a", "b", "c"] none =
      { progressed := ["a", "b"], terminated := true, killed := false,
        stillRunning := true, exitCode := 1 } := by
  decide

/-- **C5** (amended, proved).  The shared cancellation flag is polled after
each non-blank subprocess output line (never set ⇒ every non-blank line is
reported and no terminate; set throughout ⇒ the first poll observes it,
stops streaming and asks the subprocess to terminate); after the stream
closes the runner waits up to the 20-second grace period — if the
subprocess has not exited it returns code 1 with the subprocess *still
running*; `kill()` is never invoked; and a job whose post-download poll
observes cancellation is reported with the `cancel_all` event, never with
an `error` event. -/
theorem C5_cancellation (cancelAt : Nat → Bool) (lines : List String)
    (w : Option Int) (cfg : Config) (fs : String → Nat) (ox : Oracle)
    (idx : Nat) (t : TrackJob) (dest : String)
    (h1 : ox.cancelAtStart = false) (h2 : ox.cancelAfterDl = true)
    (hc : (cfg.incremental && decide (0 < fs dest)) = false) :
    (run_ytdlp_stream true cancelAt lines w).killed = false ∧
    (run_ytdlp_stream true cancelAt lines w).stillRunning = w.isNone ∧
    (run_ytdlp_stream true cancelAt lines w).exitCode =
      (match w with | some c => c | none => 1) ∧
    ((∀ n, cancelAt n = false) →
      (run_ytdlp_stream true cancelAt lines w).terminated = false ∧
      (run_ytdlp_stream true cancelAt lines w).progressed =
        lines.filter (fun l => l ≠ "")) ∧
    ((∀ n, cancelAt n = true) → lines.filter (fun l => l ≠ "") ≠ [] →
      (run_ytdlp_stream true cancelAt lines w).terminated = true ∧
      (run_ytdlp_stream true cancelAt lines w).progressed.length = 1) ∧
    process_one cfg fs ox idx t dest =
      { events := [.init idx (pretty_title t), .cancel_all], made := none,
        ranSubprocess := true, sourceSpec := some (job_source_spec cfg t),
        tmpLeft := (fmt_entry cfg).needs_aiff && ox.tmpAfterDl } ∧
    ∀ i m, Event.error i m ∉ (process_one cfg fs ox idx t dest).events := by
  have hpo : process_one cfg fs ox idx t dest =
      { events := [.init idx (pretty_title t), .cancel_all], made := none,
        ranSubprocess := true, sourceSpec := some (job_source_spec cfg t),
        tmpLeft := (fmt_entry cfg).needs_aiff && ox.tmpAfterDl } := by
    simp [process_one, h1, h2, hc]
  refine ⟨rfl, rfl, rfl, ?_, ?_, hpo, ?_⟩
  · intro hno
    have := stream_loop_no_cancel cancelAt hno 0 lines
    simp [run_ytdlp_stream, this]
  · intro hall hne
    have := stream_loop_all_cancel cancelAt hall 0 lines hne
    simp only [run_ytdlp_stream, Bool.not_true, Bool.false_eq_true, if_false]
    exact this
  · intro i m hmem
    rw [hpo] at hmem
    simp at hmem

theorem C5_witness :
    ((run_ytdlp_stream true (fun n => decide (1 ≤ n)) ["a", "b", "c"]
        none).killed = false ∧
    (run_ytdlp_stream true (fun n => decide (1 ≤ n)) ["a", "b", "c"]
        none).stillRunning = (none : Option Int).isNone ∧
    (run_ytdlp_stream true (fun n => decide (1 ≤ n)) ["a", "b", "c"]
        none).exitCode =
      (match (none : Option Int) with | some c => c | none => 1) ∧
    ((∀ n, (fun n => decide (1 ≤ n)) n = false) →
      (run_ytdlp_stream true (fun n => decide (1 ≤ n)) ["a", "b", "c"]
        none).terminated = false ∧
      (run_ytdlp_stream true (fun n => decide (1 ≤ n)) ["a", "b", "c"]
        none).progressed = ["a", "b", "c"].filter (fun l => l ≠ "")) ∧
    ((∀ n, (fun n => decide (1 ≤ n)) n = true) →
      ["a", "b", "c"].filter (fun l => l ≠ "") ≠ [] →
      (run_ytdlp_stream true (fun n => decide (1 ≤ n)) ["a", "b", "c"]
        none).terminated = true ∧
      (run_ytdlp_stream true (fun n => decide (1 ≤ n)) ["a", "b", "c"]
        none).progressed.length = 1) ∧
    process_one cfgMp3 fsEmpty { oxOK with cancelAfterDl := true } 1 jobAS
        "Artist - Song.mp3" =
      { events := [.init 1 (pretty_title jobAS), .cancel_all], made := none,
        ranSubprocess := true,
        sourceSpec := some (job_source_spec cfgMp3 jobAS),
        tmpLeft := (fmt_entry cfgMp3).needs_aiff &&
          ({ oxOK with cancelAfterDl := true } : Oracle).tmpAfterDl } ∧
    ∀ i m, Event.error i m ∉
      (process_one cfgMp3 fsEmpty { oxOK with cancelAfterDl := true } 1 jobAS
        "Artist - Song.mp3").events) :=
  C5_cancellation (fun n => decide (1 ≤ n)) ["a", "b", "c"] none cfgMp3
    fsEmpty { oxOK with cancelAfterDl := true } 1 jobAS "Artist - Song.mp3"
    rfl rfl (by decide)

/-! ## C7 — missing retrieval binary -/

/-- If no worker produced a file, the made-files list is empty whatever the
completion order. -/
theorem made_files_eq_nil (outs : List JobOut) (order : List Nat)
    (h : ∀ out ∈ outs, out.made = none) :
    made_files outs order = [] := by
  rw [made_files, List.filterMap_eq_nil_iff]
  intro i _
  cases hg : outs[i]? with
  | none => rfl
  | some out => simp [h out (List.getElem?_mem hg)]

/-- **C7** (confirmed).  When the retrieval binary is unresolvable (every
spawn attempt yields the 127-equivalent), each of the N planned jobs
independently reports the tool-not-found error, no job succeeds (no made
file, empty playlist list for every completion order), and the batch —
being a total function — returns normally with one outcome per job
(`convert_from_csv` additionally swallows worker exceptions at
converter.py lines 170-175, so no exception escapes). -/
theorem C7_tool_missing (cfg : Config) (rows : List Row) (fs : String → Nat)
    (ox : Nat → Oracle) (order : List Nat)
    (hfs : ∀ s, fs s = 0)
    (hox : ∀ n, (ox n).cancelAtStart = false ∧ (ox n).cancelAfterDl = false ∧
      (ox n).dlCode = 127) :
    (batch_outs cfg fs ox rows).length = conv_init_new cfg rows ∧
    made_files (batch_outs cfg fs ox rows) order = [] ∧
    ∀ out ∈ batch_outs cfg fs ox rows,
      out.made = none ∧ out.ranSubprocess = true ∧
      ∃ i t, out.events =
        [Event.init i (pretty_title t), Event.error i toolMissingMsg] := by
  have hmain : ∀ out ∈ batch_outs cfg fs ox rows,
      out.made = none ∧ out.ranSubprocess = true ∧
      ∃ i t, out.events =
        [Event.init i (pretty_title t), Event.error i toolMissingMsg] := by
    intro out hout
    rw [batch_outs] at hout
    obtain ⟨p, _, rfl⟩ := List.mem_map.mp hout
    have hc : (cfg.incremental &&
        decide (0 < fs (dest_name cfg (p.1 + 1) p.2))) = false := by
      simp [hfs]
    rw [process_one_127 _ _ _ _ _ _ (hox (p.1 + 1)).1 (hox (p.1 + 1)).2.1
      (hox (p.1 + 1)).2.2 hc]
    exact ⟨rfl, rfl, p.1 + 1, p.2, rfl⟩
  refine ⟨?_, made_files_eq_nil _ order (fun out ho => (hmain out ho).1),
    hmain⟩
  simp [batch_outs, conv_init_new, List.enum_length]

/-- The tool-missing oracle: spawning yt-dlp fails for every worker. -/
def oxMissing : Nat → Oracle := fun _ =>
  { cancelAtStart := false, dlCode := 127, cancelAfterDl := false,
    tmpAfterDl := false, destAfterDl := false, aiffOk := true }

def rowsXY : List Row :=
  [⟨"X", "A", "", "", "", ""⟩, ⟨"Y", "B", "", "", "", ""⟩]

theorem C7_witness :
    ((batch_outs cfgMp3 fsEmpty oxMissing rowsXY).length =
      conv_init_new cfgMp3 rowsXY ∧
    made_files (batch_outs cfgMp3 fsEmpty oxMissing rowsXY) [0, 1] = [] ∧
    ∀ out ∈ batch_outs cfgMp3 fsEmpty oxMissing rowsXY,
      out.made = none ∧ out.ranSubprocess = true ∧
      ∃ i t, out.events =
        [Event.init i (pretty_title t), Event.error i toolMissingMsg]) :=
  C7_tool_missing cfgMp3 rowsXY fsEmpty oxMissing [0, 1] (fun _ => rfl)
    (fun _ => ⟨rfl, rfl, rfl⟩)

/-! ## C4 — `conv_init` count vs dedupe -/

def rowsXYZ : List Row :=
  [⟨"X", "A", "", "", "", ""⟩, ⟨"Y", "B", "", "", "", ""⟩,
   ⟨"Z", "C", "", "", "", ""⟩]

/-- A destination folder already holding row 2's output file. -/
def fsRow2 : String → Nat := fun s => if s = "B - Y.mp3" then 1 else 0

/-- **C4** (counterexample).  Three rows and a destination folder that
already satisfies row 2: the `conv_init` event still reports `new = 3`
(the count is taken *before* any dedupe, converter.py lines 146-147),
while indeed only rows 1 and 3 are downloaded (row 2 is skipped inside its
worker).  The claim's `new = 2` is therefore false. -/
theorem C4_counterexample :
    conv_init_new cfgMp3 rowsXYZ = 3 ∧
    (batch_outs cfgMp3 fsRow2 (fun _ => oxOK) rowsXYZ).map
      JobOut.ranSubprocess = [true, false, true] ∧
    conv_init_new cfgMp3 rowsXYZ ≠ 2 := by
  decide

/-- **C4** (amended, proved).  The `conv_init` event reports `new` as the
number of jobs after instrumental filtering only — it is independent of the
existing output; dedupe happens later, inside each worker: a job's
subprocess runs if and only if `incremental_update` is off or the computed
destination file is missing/empty.  (With an empty destination folder every
planned job downloads, so the fresh-run half of the original claim holds;
the `new` count never shrinks on a partial-incremental run.) -/
theorem C4_conv_init_count (cfg : Config) (fs : String → Nat)
    (ox : Nat → Oracle) (rows : List Row)
    (h : ∀ n, (ox n).cancelAtStart = false) :
    conv_init_new cfg rows = (planned_tracks cfg rows).length ∧
    (batch_outs cfg fs ox rows).map JobOut.ranSubprocess =
      (planned_tracks cfg rows).enum.map (fun p =>
        !(cfg.incremental &&
          decide (0 < fs (dest_name cfg (p.1 + 1) p.2)))) := by
  refine ⟨rfl, ?_⟩
  rw [batch_outs, List.map_map]
  apply List.map_congr_left
  intro p _
  exact process_one_ranSubprocess cfg fs (ox (p.1 + 1)) (p.1 + 1) p.2
    (dest_name cfg (p.1 + 1) p.2) (h (p.1 + 1))

theorem C4_witness :
    (conv_init_new cfgMp3 rowsXYZ = (planned_tracks cfgMp3 rowsXYZ).length ∧
    (batch_outs cfgMp3 fsRow2 (fun _ => oxOK) rowsXYZ).map
        JobOut.ranSubprocess =
      (planned_tracks cfgMp3 rowsXYZ).enum.map (fun p =>
        !(cfgMp3.incremental &&
          decide (0 < fsRow2 (dest_name cfgMp3 (p.1 + 1) p.2))))) :=
  C4_conv_init_count cfgMp3 fsRow2 (fun _ => oxOK) rowsXYZ (fun _ => rfl)

/-! ## C2 — playlist order under permuted completion order -/

/-- The outcomes of a fully successful two-track run. -/
def outsXY : List JobOut := batch_outs cfgMp3 fsEmpty (fun _ => oxOK) rowsXY

/-- **C2** (code bug).  Two jobs, both successful; each worker appends its
file name to `self._made_files` when it completes, and `convert_from_csv`
writes that list verbatim (the comment at converter.py line 181 claims
"garder l'ordre par index", but nothing sorts the list and no modification
time is consulted).  If worker 2 completes before worker 1, the playlist
index lists the files in completion order `[B - Y.mp3, A - X.mp3]`, not in
ascending sequence-index order — the index contents are *not* invariant
under permutation of the job completion order. -/
theorem C2_completion_order_bug :
    m3u_content cfgMp3 outsXY [0, 1] = some ["A - X.mp3", "B - Y.mp3"] ∧
    m3u_content cfgMp3 outsXY [1, 0] = some ["B - Y.mp3", "A - X.mp3"] ∧
    m3u_content cfgMp3 outsXY [1, 0] ≠ m3u_content cfgMp3 outsXY [0, 1] := by
  decide

end Claims

end Music2MP3
